import Mathlib

/-!
# Shallow embedding of the `http_agent` integration's entity layer

This file embeds, in Lean 4, the subscriber-side rendering logic of the
`http_agent` custom component (files `sensor.py`, `binary_sensor.py`,
`number.py`, `device_tracker.py`, `config_flow.py`) and proves properties of
the embedded definitions.

Modelling conventions:
* Python values appearing in coordinator snapshots are an inductive `Value`
  (`None`, `bool`, `int`, `float`, `str`, `list`, `dict`).  Python floats are
  modelled as rationals; `inf`/`nan` literals are outside the model.
* A per-sensor record (`sensor_data`) is an association list of string keys to
  values; the coordinator snapshot (`coordinator.data`) is an association list
  of sensor names to records, and is wrapped in `Option` because it is `None`
  before the first refresh.
* Code that can raise an uncaught exception is given the type `Except PyErr _`;
  code whose exceptions are caught (the `try/except` around `float(...)`)
  returns `Option`.
* Python builtins (`bool`, `str`, `int`, `float` coercions, `str.lower`,
  `str.startswith`, `urllib.parse.urlparse`, `voluptuous` validators) are
  modelled explicitly below, each next to a comment naming what it embeds.
  `str.lower` is modelled on ASCII letters, which is exact on every string the
  comparisons in this code use.
-/

/-- A Python scalar/container value as it appears in a coordinator snapshot. -/
inductive Value where
  | vNull : Value
  | vBool (b : Bool) : Value
  | vInt (n : Int) : Value
  | vFloat (q : Rat) : Value
  | vStr (s : String) : Value
  | vList (xs : List Value) : Value
  | vDict (xs : List (String × Value)) : Value

/-- A per-sensor record: the Python dict `snapshot[sensor_name]`. -/
abbrev SensorData := List (String × Value)

/-- The coordinator snapshot: the Python dict `coordinator.data`. -/
abbrev Snapshot := List (String × SensorData)

/-- An uncaught Python exception relevant to this code. -/
inductive PyErr where
  | attributeError : PyErr
deriving DecidableEq, Repr

/-- Python truthiness (`bool(v)`): `None`/`False`/zero/empty are falsy. -/
def pyTruthy : Value → Bool
  | .vNull => false
  | .vBool b => b
  | .vInt n => n != 0
  | .vFloat q => q != 0
  | .vStr s => s != ""
  | .vList xs => !xs.isEmpty
  | .vDict xs => !xs.isEmpty

/-- ASCII lowercasing, the fragment of Python `str.lower` this code relies on. -/
def asciiLower (s : String) : String :=
  String.mk (s.toList.map Char.toLower)

/-- Python `str(v)` on scalar values.  Floats are printed as rationals; no
claim in this development depends on the rendering of a float. -/
def pyStr : Value → String
  | .vNull => "None"
  | .vBool b => if b then "True" else "False"
  | .vInt n => toString n
  | .vFloat q => toString q
  | .vStr s => s
  | .vList _ => "[...]"
  | .vDict _ => "{...}"

/-- Digits of a numeric literal, accumulated into a natural number. -/
def digitsToNat (cs : List Char) : Nat :=
  cs.foldl (fun acc c => acc * 10 + (c.toNat - '0'.toNat)) 0

/-- Leading decimal digits of a character list, and the rest. -/
def spanDigits (cs : List Char) : List Char × List Char :=
  (cs.takeWhile Char.isDigit, cs.dropWhile Char.isDigit)

/-- Strip leading and trailing ASCII whitespace/control characters, as the
Python numeric constructors do before parsing a string. -/
def stripWs (cs : List Char) : List Char :=
  ((cs.dropWhile fun c => c.toNat ≤ 32).reverse.dropWhile fun c => c.toNat ≤ 32).reverse

/-- Optional sign at the head of a numeric literal: returns (sign, rest). -/
def takeSign : List Char → Int × List Char
  | '+' :: rest => (1, rest)
  | '-' :: rest => (-1, rest)
  | cs => (1, cs)

/-- Python `int(s)` on a string (base 10): optional surrounding whitespace,
optional sign, at least one digit.  Digit-group underscores are outside the
model. -/
def parseIntStr (s : String) : Option Int :=
  let cs := stripWs s.toList
  let (sgn, cs) := takeSign cs
  let (ds, rest) := spanDigits cs
  if ds.isEmpty || !rest.isEmpty then none
  else some (sgn * (digitsToNat ds : Int))

/-- Exponent suffix of a float literal: `e`/`E`, optional sign, digits. -/
def parseExponent : List Char → Option Int
  | [] => some 0
  | 'e' :: rest =>
    let (sgn, rest) := takeSign rest
    let (ds, rest) := spanDigits rest
    if ds.isEmpty || !rest.isEmpty then none else some (sgn * (digitsToNat ds : Int))
  | 'E' :: rest =>
    let (sgn, rest) := takeSign rest
    let (ds, rest) := spanDigits rest
    if ds.isEmpty || !rest.isEmpty then none else some (sgn * (digitsToNat ds : Int))
  | _ => none

/-- Python `float(s)` on a string: optional whitespace and sign, a mantissa
with at least one digit (forms `d`, `d.`, `d.d`, `.d`), and an optional
exponent.  `inf`/`nan` literals are outside the model. -/
def parseFloatStr (s : String) : Option Rat :=
  let cs := stripWs s.toList
  let (sgn, cs) := takeSign cs
  let (intPart, cs) := spanDigits cs
  let (fracPart, cs) :=
    match cs with
    | '.' :: rest => spanDigits rest
    | _ => ([], cs)
  if intPart.isEmpty && fracPart.isEmpty then none
  else
    match parseExponent cs with
    | none => none
    | some e =>
      let mant : Rat :=
        (digitsToNat (intPart ++ fracPart) : Rat) / ((10 : Rat) ^ fracPart.length)
      let scaled : Rat :=
        if 0 ≤ e then mant * (10 : Rat) ^ e.toNat else mant / (10 : Rat) ^ (-e).toNat
      some ((sgn : Rat) * scaled)

/-- Truncation toward zero, as Python `int(float)` behaves. -/
def ratTrunc (q : Rat) : Int :=
  if q < 0 then -⌊-q⌋ else ⌊q⌋

/-- Python `float(v)`: succeeds on bools, ints, floats and well-formed numeric
strings; raises (here: `none`) on `None`, containers and malformed strings. -/
def pyFloat : Value → Option Rat
  | .vBool b => some (if b then 1 else 0)
  | .vInt n => some (n : Rat)
  | .vFloat q => some q
  | .vStr s => parseFloatStr s
  | _ => none

/-- Python `int(v)`: succeeds on bools, ints, floats (truncating) and integer
strings; raises (here: `none`) on `None`, containers and malformed strings. -/
def pyInt : Value → Option Int
  | .vBool b => some (if b then 1 else 0)
  | .vInt n => some n
  | .vFloat q => some (ratTrunc q)
  | .vStr s => parseIntStr s
  | _ => none

/-- Python `s.startswith(t)`, on the character lists of the strings. -/
def pyStartsWith (s t : String) : Bool :=
  t.toList.isPrefixOf s.toList

/-- `bool(coordinator.data)`: false when the snapshot is `None` or empty. -/
def snapshotTruthy : Option Snapshot → Bool
  | none => false
  | some s => !s.isEmpty

/-- `coordinator.data.get(sensor_name, {})` (with `data` possibly `None`;
every caller reads it only after the `if not self.coordinator.data` guard). -/
def snapGet (d : Option Snapshot) (n : String) : SensorData :=
  match d with
  | none => []
  | some s => (s.lookup n).getD []

/-- `sensor_data.get(key)`: `None` both when the key is absent and when it is
present with value `None`. -/
def fieldGet (sd : SensorData) (k : String) : Value :=
  (sd.lookup k).getD .vNull

/-- `sensor_data.get(key, default)`: the default applies only when the key is
absent, not when it is present with value `None`. -/
def fieldGetD (sd : SensorData) (k : String) (dflt : Value) : Value :=
  (sd.lookup k).getD dflt

/-! ## Entity value properties (sensor.py, binary_sensor.py, number.py,
device_tracker.py) -/

/-- `HTTPAgentSensor.native_value` (sensor.py): guard on a falsy snapshot,
then `sensor_data.get("state")` verbatim. -/
def sensorNativeValue (d : Option Snapshot) (n : String) : Value :=
  if !snapshotTruthy d then .vNull
  else fieldGet (snapGet d n) "state"

/-- The strings the binary sensor treats as true after lowercasing. -/
def binaryTrueStrings : List String :=
  ["true", "on", "yes", "1", "active", "open"]

/-- `HTTPAgentBinarySensor.is_on` (binary_sensor.py): `None` stays unknown, a
bool passes through, a string is compared lowercased against the allowed set,
a number is compared with zero, anything else goes through `bool(state)`. -/
def binarySensorIsOn (d : Option Snapshot) (n : String) : Option Bool :=
  if !snapshotTruthy d then none
  else
    match fieldGet (snapGet d n) "state" with
    | .vNull => none
    | .vBool b => some b
    | .vStr s => some (binaryTrueStrings.contains (asciiLower s))
    | .vInt i => some (decide (0 < i))
    | .vFloat q => some (decide (0 < q))
    | v => some (pyTruthy v)

/-- `HTTPAgentNumber.native_value` (number.py): `None` state yields no value,
otherwise `float(state)` with `ValueError`/`TypeError` caught to `None`. -/
def numberNativeValue (d : Option Snapshot) (n : String) : Option Rat :=
  if !snapshotTruthy d then none
  else
    match fieldGet (snapGet d n) "state" with
    | .vNull => none
    | st => pyFloat st

/-- `HTTPAgentDeviceTracker.latitude` (device_tracker.py): `float(lat)` with
errors caught to `None`, applied only when the field is not `None`. -/
def trackerLatitude (d : Option Snapshot) (n : String) : Option Rat :=
  if !snapshotTruthy d then none
  else
    match fieldGet (snapGet d n) "latitude" with
    | .vNull => none
    | v => pyFloat v

/-- `HTTPAgentDeviceTracker.longitude` (device_tracker.py): same shape as
`latitude`. -/
def trackerLongitude (d : Option Snapshot) (n : String) : Option Rat :=
  if !snapshotTruthy d then none
  else
    match fieldGet (snapGet d n) "longitude" with
    | .vNull => none
    | v => pyFloat v

/-- `HTTPAgentDeviceTracker.location_name` (device_tracker.py): fall back to
`state` when `location_name` is falsy, then `str(...)` unless `None`. -/
def trackerLocationName (d : Option Snapshot) (n : String) : Option String :=
  if !snapshotTruthy d then none
  else
    let loc := fieldGet (snapGet d n) "location_name"
    let loc := if pyTruthy loc then loc else fieldGet (snapGet d n) "state"
    match loc with
    | .vNull => none
    | v => some (pyStr v)

/-- The host platform's tracker source types used by this component. -/
inductive SourceType where
  | gps : SourceType
  | router : SourceType
  | bluetooth : SourceType
  | bluetoothLE : SourceType
deriving DecidableEq, Repr

/-- `HTTPAgentDeviceTracker.source_type` (device_tracker.py):
`sensor_data.get("source_type", "gps")` followed by `source.lower()`
comparisons.  When the field is present with value `None` (or any non-string),
`source.lower()` raises `AttributeError` — hence the `Except`. -/
def trackerSourceType (d : Option Snapshot) (n : String) :
    Except PyErr SourceType :=
  if !snapshotTruthy d then .ok .gps
  else
    match fieldGetD (snapGet d n) "source_type" (.vStr "gps") with
    | .vStr s =>
      if asciiLower s = "router" then .ok .router
      else if asciiLower s = "bluetooth" then .ok .bluetooth
      else if asciiLower s = "bluetooth_le" then .ok .bluetoothLE
      else .ok .gps
    | _ => .error .attributeError

/-- The icon body shared verbatim by all four platform files:
`if icon and not icon.startswith("mdi:"): icon = f"mdi:{icon}"`.  A truthy
non-string icon would raise `AttributeError` at `icon.startswith`. -/
def iconBody (d : Option Snapshot) (n : String) : Except PyErr Value :=
  if !snapshotTruthy d then .ok .vNull
  else
    match fieldGet (snapGet d n) "icon" with
    | .vStr s =>
      if s != "" && !pyStartsWith s "mdi:" then .ok (.vStr ("mdi:" ++ s))
      else .ok (.vStr s)
    | .vNull => .ok .vNull
    | v => if pyTruthy v then .error .attributeError else .ok v

/-- `HTTPAgentSensor.icon` (sensor.py). -/
def sensorIcon (d : Option Snapshot) (n : String) : Except PyErr Value :=
  iconBody d n

/-- `HTTPAgentBinarySensor.icon` (binary_sensor.py). -/
def binarySensorIcon (d : Option Snapshot) (n : String) : Except PyErr Value :=
  iconBody d n

/-- `HTTPAgentNumber.icon` (number.py). -/
def numberIcon (d : Option Snapshot) (n : String) : Except PyErr Value :=
  iconBody d n

/-- `HTTPAgentDeviceTracker.icon` (device_tracker.py). -/
def trackerIcon (d : Option Snapshot) (n : String) : Except PyErr Value :=
  iconBody d n

/-- The `extra_state_attributes` body shared by sensor, binary sensor and
number: a `color` entry when `sensor_data.get("color")` is truthy. -/
def colorAttributes (d : Option Snapshot) (n : String) : List (String × Value) :=
  if !snapshotTruthy d then []
  else
    if pyTruthy (fieldGet (snapGet d n) "color") then
      [("color", fieldGet (snapGet d n) "color")]
    else []

/-- `HTTPAgentSensor.extra_state_attributes` (sensor.py). -/
def sensorExtraStateAttributes (d : Option Snapshot) (n : String) :
    List (String × Value) :=
  colorAttributes d n

/-- `HTTPAgentBinarySensor.extra_state_attributes` (binary_sensor.py). -/
def binarySensorExtraStateAttributes (d : Option Snapshot) (n : String) :
    List (String × Value) :=
  colorAttributes d n

/-- `HTTPAgentNumber.extra_state_attributes` (number.py). -/
def numberExtraStateAttributes (d : Option Snapshot) (n : String) :
    List (String × Value) :=
  colorAttributes d n

/-- `HTTPAgentDeviceTracker.extra_state_attributes` (device_tracker.py): the
`color` entry plus raw coordinates when they are not `None`. -/
def trackerExtraStateAttributes (d : Option Snapshot) (n : String) :
    List (String × Value) :=
  if !snapshotTruthy d then []
  else
    (if pyTruthy (fieldGet (snapGet d n) "color") then
       [("color", fieldGet (snapGet d n) "color")]
     else []) ++
    (match fieldGet (snapGet d n) "latitude" with
     | .vNull => []
     | v => [("raw_latitude", v)]) ++
    (match fieldGet (snapGet d n) "longitude" with
     | .vNull => []
     | v => [("raw_longitude", v)])

/-- `HTTPAgentNumber.async_set_native_value` (number.py): unconditionally
`raise NotImplementedError(...)`; the coordinator state is never touched, so a
successful result (which would carry the new state) is impossible. -/
def numberSetNativeValue (_st : Option Snapshot) (_v : Rat) :
    Except String (Option Snapshot) :=
  .error "HTTP Agent numbers are read-only"

/-! ## Config flow (config_flow.py) -/

/-- The result of `urllib.parse.urlparse` that the config flow inspects. -/
structure UrlParts where
  scheme : String
  netloc : String
  rest : String
deriving DecidableEq, Repr

/-- A character of `urllib.parse.scheme_chars`. -/
def isSchemeChar (c : Char) : Bool :=
  c.isAlpha || c.isDigit || c == '+' || c == '-' || c == '.'

/-- `urllib.parse.urlparse` restricted to the fields the flow reads: strip
surrounding C0-control/space characters, drop tab/CR/LF, split off a scheme
(first `:` preceded by an ASCII letter then scheme characters, lowercased),
and take the netloc after `//` up to `/`, `?` or `#`.  A netloc with
unbalanced square brackets raises `ValueError` ("Invalid IPv6 URL"); the
deeper bracketed-host validation is outside the model. -/
def pyUrlparse (url : String) : Except String UrlParts :=
  let cs := stripWs url.toList
  let cs := cs.filter fun c => !(c == '\t' || c == '\r' || c == '\n')
  let schemeSplit : String × List Char :=
    match cs.span (fun c => !(c == ':')) with
    | (before, ':' :: after) =>
      match before with
      | [] => ("", cs)
      | c0 :: _ =>
        if c0.isAlpha && before.all isSchemeChar then
          (asciiLower (String.mk before), after)
        else ("", cs)
    | _ => ("", cs)
  match schemeSplit with
  | (scheme, rest) =>
    match rest with
    | '/' :: '/' :: afterSlashes =>
      let nl := afterSlashes.takeWhile fun c => !(c == '/' || c == '?' || c == '#')
      let tail := afterSlashes.dropWhile fun c => !(c == '/' || c == '?' || c == '#')
      if (nl.contains '[' && !nl.contains ']') ||
         (nl.contains ']' && !nl.contains '[') then
        .error "Invalid IPv6 URL"
      else .ok ⟨scheme, String.mk nl, String.mk tail⟩
    | _ => .ok ⟨scheme, "", String.mk rest⟩

/-- The observable outcome of submitting a form step. -/
inductive StepResult where
  | advanceHeaders : StepResult
  | createEntry : StepResult
  | showForm (error : String) : StepResult
deriving DecidableEq, Repr

/-- `HTTPAgentConfigFlow.async_step_user` on a submitted URL: `urlparse` in a
`try/except`, `invalid_url` unless scheme and netloc are both non-empty,
otherwise proceed to the headers step. -/
def asyncStepUserUrl (url : String) : StepResult :=
  match pyUrlparse url with
  | .error _ => .showForm "invalid_url"
  | .ok p =>
    if p.scheme = "" || p.netloc = "" then .showForm "invalid_url"
    else .advanceHeaders

/-- `HTTPAgentOptionsFlow.async_step_basic` on a submitted URL: the same
validation, but success creates/saves the options entry. -/
def asyncStepBasicUrl (url : String) : StepResult :=
  match pyUrlparse url with
  | .error _ => .showForm "invalid_url"
  | .ok p =>
    if p.scheme = "" || p.netloc = "" then .showForm "invalid_url"
    else .createEntry

/-- `voluptuous.Coerce(int)`: `int(v)` with `ValueError`/`TypeError` turned
into a validation failure. -/
def volCoerceInt (v : Value) : Option Int :=
  pyInt v

/-- `voluptuous.Range(min=lo, max=hi)` (bounds included, the default). -/
def volRange (lo hi n : Int) : Option Int :=
  if lo ≤ n && n ≤ hi then some n else none

/-- The schema entry `vol.All(vol.Coerce(int), vol.Range(min=1, max=300))`
validating `CONF_TIMEOUT`. -/
def timeoutValidator (v : Value) : Option Int :=
  (volCoerceInt v).bind (volRange 1 300)

/-- The schema entry `vol.All(vol.Coerce(int), vol.Range(min=5, max=86400))`
validating `CONF_INTERVAL`. -/
def intervalValidator (v : Value) : Option Int :=
  (volCoerceInt v).bind (volRange 5 86400)

/-! ## Theorems -/

/-- A non-`None` field value can only come from a snapshot that passed the
`if not self.coordinator.data` guard. -/
theorem snapshotTruthy_of_fieldGet_ne (d : Option Snapshot) (n k : String)
    (h : fieldGet (snapGet d n) k ≠ .vNull) : snapshotTruthy d = true := by
  cases d with
  | none => simp [snapGet, fieldGet, List.lookup] at h
  | some s =>
    cases s with
    | nil => simp [snapGet, fieldGet, List.lookup] at h
    | cons hd tl => rfl

/-- C1: binary-sensor boolean coercion of the snapshot `state` field: a bool
passes through; a string yields true iff its lowercasing is one of
`true, on, yes, 1, active, open` (so `"Active"` is true and `"0"` is false);
an int or float yields true iff strictly positive; a missing or `None` state
yields `None` (unknown); any other value (list, dict) falls back to Python
truthiness. -/
theorem binary_sensor_boolean_coercion (d : Option Snapshot) (n : String) :
    (∀ b, fieldGet (snapGet d n) "state" = .vBool b →
      binarySensorIsOn d n = some b) ∧
    (∀ s, fieldGet (snapGet d n) "state" = .vStr s →
      binarySensorIsOn d n =
        some (decide (asciiLower s ∈ binaryTrueStrings))) ∧
    (∀ i, fieldGet (snapGet d n) "state" = .vInt i →
      binarySensorIsOn d n = some (decide (0 < i))) ∧
    (∀ q, fieldGet (snapGet d n) "state" = .vFloat q →
      binarySensorIsOn d n = some (decide (0 < q))) ∧
    (fieldGet (snapGet d n) "state" = .vNull → binarySensorIsOn d n = none) ∧
    (∀ xs, fieldGet (snapGet d n) "state" = .vList xs →
      binarySensorIsOn d n = some (pyTruthy (.vList xs))) ∧
    (∀ xs, fieldGet (snapGet d n) "state" = .vDict xs →
      binarySensorIsOn d n = some (pyTruthy (.vDict xs))) := by
  refine ⟨?_, ?_, ?_, ?_, ?_, ?_, ?_⟩
  · intro b h
    have ht := snapshotTruthy_of_fieldGet_ne d n "state" (by simp [h])
    simp [binarySensorIsOn, ht, h]
  · intro s h
    have ht := snapshotTruthy_of_fieldGet_ne d n "state" (by simp [h])
    simp only [binarySensorIsOn, ht, h, Bool.not_true, Bool.false_eq_true,
      if_false, Option.some.injEq]
    rw [Bool.eq_iff_iff]
    simp [binaryTrueStrings, List.contains, List.elem_iff]
  · intro i h
    have ht := snapshotTruthy_of_fieldGet_ne d n "state" (by simp [h])
    simp [binarySensorIsOn, ht, h]
  · intro q h
    have ht := snapshotTruthy_of_fieldGet_ne d n "state" (by simp [h])
    simp [binarySensorIsOn, ht, h]
  · intro h
    by_cases ht : snapshotTruthy d
    · simp [binarySensorIsOn, ht, h]
    · simp [binarySensorIsOn, ht]
  · intro xs h
    have ht := snapshotTruthy_of_fieldGet_ne d n "state" (by simp [h])
    simp [binarySensorIsOn, ht, h, pyTruthy]
  · intro xs h
    have ht := snapshotTruthy_of_fieldGet_ne d n "state" (by simp [h])
    simp [binarySensorIsOn, ht, h, pyTruthy]

/-- C1 witness: on the spec's test table, `"Active"` renders true. -/
theorem binary_sensor_boolean_coercion_witness :
    binarySensorIsOn (some [("b", [("state", Value.vStr "Active")])]) "b" =
      some true := by
  have h :=
    (binary_sensor_boolean_coercion
      (some [("b", [("state", Value.vStr "Active")])]) "b").2.1 "Active" rfl
  rw [h]
  decide

/-- C2: rendering a record whose `source_type` is present with value `None`
(or a non-string) raises `AttributeError` at `source.lower()`, while an
absent `source_type` falls back to `"gps"`; the device tracker does NOT
render every `None` field gracefully. -/
theorem tracker_source_type_attribute_error :
    trackerSourceType (some [("t", [("source_type", Value.vNull)])]) "t" =
      .error .attributeError ∧
    trackerSourceType (some [("t", [("source_type", Value.vInt 5)])]) "t" =
      .error .attributeError ∧
    trackerSourceType (some [("t", [])]) "t" = .ok .gps :=
  ⟨rfl, rfl, rfl⟩

/-- C3: a snapshot value that `float()` cannot convert renders as no value
(`none`) for the number entity and the tracker coordinates, without raising;
and every entity's rendering is a function of the snapshot guard plus that
entity's own record only, so one malformed value cannot affect the rendering
of the other sensors in the snapshot. -/
theorem numeric_coercion_failure_yields_none :
    (∀ (d : Option Snapshot) (n : String),
      pyFloat (fieldGet (snapGet d n) "state") = none →
      numberNativeValue d n = none) ∧
    (∀ (d : Option Snapshot) (n : String),
      pyFloat (fieldGet (snapGet d n) "latitude") = none →
      trackerLatitude d n = none) ∧
    (∀ (d : Option Snapshot) (n : String),
      pyFloat (fieldGet (snapGet d n) "longitude") = none →
      trackerLongitude d n = none) ∧
    (∀ (d₁ d₂ : Option Snapshot) (n : String),
      snapshotTruthy d₁ = snapshotTruthy d₂ → snapGet d₁ n = snapGet d₂ n →
      numberNativeValue d₁ n = numberNativeValue d₂ n ∧
      sensorNativeValue d₁ n = sensorNativeValue d₂ n ∧
      binarySensorIsOn d₁ n = binarySensorIsOn d₂ n ∧
      trackerLatitude d₁ n = trackerLatitude d₂ n ∧
      trackerLongitude d₁ n = trackerLongitude d₂ n) := by
  refine ⟨?_, ?_, ?_, ?_⟩
  · intro d n h
    by_cases ht : snapshotTruthy d
    · simp only [numberNativeValue, ht, Bool.not_true, Bool.false_eq_true,
        if_false]
      rcases hst : fieldGet (snapGet d n) "state" <;>
        simp_all [pyFloat]
    · simp [numberNativeValue, ht]
  · intro d n h
    by_cases ht : snapshotTruthy d
    · simp only [trackerLatitude, ht, Bool.not_true, Bool.false_eq_true,
        if_false]
      rcases hst : fieldGet (snapGet d n) "latitude" <;>
        simp_all [pyFloat]
    · simp [trackerLatitude, ht]
  · intro d n h
    by_cases ht : snapshotTruthy d
    · simp only [trackerLongitude, ht, Bool.not_true, Bool.false_eq_true,
        if_false]
      rcases hst : fieldGet (snapGet d n) "longitude" <;>
        simp_all [pyFloat]
    · simp [trackerLongitude, ht]
  · intro d₁ d₂ n h₁ h₂
    refine ⟨?_, ?_, ?_, ?_, ?_⟩ <;>
      simp only [numberNativeValue, sensorNativeValue, binarySensorIsOn,
        trackerLatitude, trackerLongitude, h₁, h₂]

/-- C3 witness: a non-numeric string state renders as no value. -/
theorem numeric_coercion_failure_yields_none_witness :
    numberNativeValue (some [("n", [("state", Value.vStr "abc")])]) "n" =
      none := by
  exact numeric_coercion_failure_yields_none.1
    (some [("n", [("state", Value.vStr "abc")])]) "n" rfl

/-- C4: icon normalization, via the body shared by all four entity kinds: a
non-empty icon string without the `mdi:` marker gets it prepended, a string
already carrying it is unchanged, and an empty or absent icon stays absent. -/
theorem icon_normalization (d : Option Snapshot) (n : String) :
    sensorIcon d n = iconBody d n ∧
    binarySensorIcon d n = iconBody d n ∧
    numberIcon d n = iconBody d n ∧
    trackerIcon d n = iconBody d n ∧
    (∀ s, fieldGet (snapGet d n) "icon" = .vStr s → s ≠ "" →
      pyStartsWith s "mdi:" = false →
      iconBody d n = .ok (.vStr ("mdi:" ++ s))) ∧
    (∀ s, fieldGet (snapGet d n) "icon" = .vStr s →
      pyStartsWith s "mdi:" = true → iconBody d n = .ok (.vStr s)) ∧
    (fieldGet (snapGet d n) "icon" = .vStr "" → iconBody d n = .ok (.vStr "")) ∧
    (fieldGet (snapGet d n) "icon" = .vNull → iconBody d n = .ok .vNull) := by
  refine ⟨rfl, rfl, rfl, rfl, ?_, ?_, ?_, ?_⟩
  · intro s h hne hpre
    have ht := snapshotTruthy_of_fieldGet_ne d n "icon" (by simp [h])
    simp [iconBody, ht, h, hne, hpre]
  · intro s h hpre
    have ht := snapshotTruthy_of_fieldGet_ne d n "icon" (by simp [h])
    simp [iconBody, ht, h, hpre]
  · intro h
    have ht := snapshotTruthy_of_fieldGet_ne d n "icon" (by simp [h])
    simp [iconBody, ht, h]
  · intro h
    by_cases ht : snapshotTruthy d
    · simp [iconBody, ht, h]
    · simp [iconBody, ht]

/-- C4 witness: `"home"` is surfaced as `"mdi:home"`. -/
theorem icon_normalization_witness :
    sensorIcon (some [("s", [("icon", Value.vStr "home")])]) "s" =
      .ok (.vStr "mdi:home") := by
  have h := icon_normalization (some [("s", [("icon", Value.vStr "home")])]) "s"
  rw [h.1]
  exact h.2.2.2.2.1 "home" rfl (by decide) (by decide)

/-- C5: the plain sensor's rendered value is exactly the `state` field of its
record when the snapshot contains the sensor's name, and `None` when the
snapshot lacks the name. -/
theorem sensor_native_value_is_state_field (s : Snapshot) (n : String) :
    (∀ rec, s.lookup n = some rec →
      sensorNativeValue (some s) n = fieldGet rec "state") ∧
    (s.lookup n = none → sensorNativeValue (some s) n = .vNull) := by
  constructor
  · intro rec h
    cases s with
    | nil => simp [List.lookup] at h
    | cons hd tl =>
      simp [sensorNativeValue, snapshotTruthy, snapGet, h]
  · intro h
    cases s with
    | nil => rfl
    | cons hd tl =>
      have hg : snapGet (some (hd :: tl)) n = [] := by simp [snapGet, h]
      simp [sensorNativeValue, snapshotTruthy, hg, fieldGet, List.lookup]

/-- C5 witness: the spec's end-to-end scenario, `state` = 21.5 renders
as 21.5. -/
theorem sensor_native_value_is_state_field_witness :
    sensorNativeValue (some [("temp", [("state", Value.vFloat (21.5 : Rat)),
      ("unit_of_measurement", Value.vStr "°C")])]) "temp" =
      Value.vFloat (21.5 : Rat) := by
  have h := (sensor_native_value_is_state_field
    [("temp", [("state", Value.vFloat (21.5 : Rat)),
      ("unit_of_measurement", Value.vStr "°C")])] "temp").1
    [("state", Value.vFloat (21.5 : Rat)),
      ("unit_of_measurement", Value.vStr "°C")] rfl
  rw [h]
  rfl

/-- C6: the initial config-flow step (and the options flow's basic step)
advances past URL entry exactly when the submitted URL parses to a non-empty
scheme and a non-empty netloc; in every other case (including a `ValueError`
from `urlparse`) the step reports `invalid_url` and shows the form again. -/
theorem config_flow_url_validation (url : String) :
    (asyncStepUserUrl url = .advanceHeaders ↔
      ∃ p, pyUrlparse url = .ok p ∧ p.scheme ≠ "" ∧ p.netloc ≠ "") ∧
    (asyncStepUserUrl url ≠ .advanceHeaders →
      asyncStepUserUrl url = .showForm "invalid_url") ∧
    (asyncStepBasicUrl url = .createEntry ↔
      ∃ p, pyUrlparse url = .ok p ∧ p.scheme ≠ "" ∧ p.netloc ≠ "") ∧
    (asyncStepBasicUrl url ≠ .createEntry →
      asyncStepBasicUrl url = .showForm "invalid_url") := by
  rcases hp : pyUrlparse url with e | p
  · refine ⟨?_, ?_, ?_, ?_⟩ <;> simp [asyncStepUserUrl, asyncStepBasicUrl, hp]
  · by_cases hs : p.scheme = "" ∨ p.netloc = ""
    · have hb : (p.scheme = "" || p.netloc = "") = true := by
        rcases hs with h | h <;> simp [h]
      refine ⟨?_, ?_, ?_, ?_⟩ <;>
          simp [asyncStepUserUrl, asyncStepBasicUrl, hp, hb] <;>
        tauto
    · push_neg at hs
      have hb : (p.scheme = "" || p.netloc = "") = false := by
        simp [hs.1, hs.2]
      refine ⟨?_, ?_, ?_, ?_⟩ <;>
          simp [asyncStepUserUrl, asyncStepBasicUrl, hp, hb] <;>
        tauto

/-- C6 witness: `http://example.com` advances; a URL with no scheme is
rejected with `invalid_url`. -/
theorem config_flow_url_validation_witness :
    asyncStepUserUrl "http://example.com" = .advanceHeaders := by
  exact (config_flow_url_validation "http://example.com").1.mpr
    ⟨⟨"http", "example.com", ""⟩, rfl, by decide, by decide⟩

/-- C7: the schema accepts a timeout value exactly when `int(v)` succeeds
with a result in `[1, 300]`, and a poll interval exactly when `int(v)`
succeeds with a result in `[5, 86400]`. -/
theorem timeout_interval_bounds (v : Value) (m : Int) :
    (timeoutValidator v = some m ↔ pyInt v = some m ∧ 1 ≤ m ∧ m ≤ 300) ∧
    (intervalValidator v = some m ↔ pyInt v = some m ∧ 5 ≤ m ∧ m ≤ 86400) := by
  rcases hv : pyInt v with _ | k
  · simp [timeoutValidator, intervalValidator, volCoerceInt, hv]
  · simp only [timeoutValidator, intervalValidator, volCoerceInt, volRange,
      hv, Option.some_bind, Option.some.injEq]
    constructor <;> · split <;> simp_all <;> omega

/-- C7 witness: 30 is an accepted timeout; 86400 is an accepted interval. -/
theorem timeout_interval_bounds_witness :
    timeoutValidator (Value.vInt 30) = some 30 ∧
    intervalValidator (Value.vInt 86400) = some 86400 := by
  constructor
  · exact (timeout_interval_bounds (Value.vInt 30) 30).1.mpr
      ⟨rfl, by decide, by decide⟩
  · exact (timeout_interval_bounds (Value.vInt 86400) 86400).2.mpr
      ⟨rfl, by decide, by decide⟩

/-- C8: `async_set_native_value` raises `NotImplementedError` for every value
and never produces a successor state: the number entity is read-only. -/
theorem number_set_value_read_only (st : Option Snapshot) (v : Rat) :
    numberSetNativeValue st v = .error "HTTP Agent numbers are read-only" ∧
    ∀ st', numberSetNativeValue st v ≠ .ok st' := by
  exact ⟨rfl, fun st' h => nomatch h⟩

/-- C8 witness: a concrete set-value call on a live snapshot fails. -/
theorem number_set_value_read_only_witness :
    numberSetNativeValue (some [("n", [("state", Value.vInt 1)])]) 5 =
      .error "HTTP Agent numbers are read-only" :=
  (number_set_value_read_only (some [("n", [("state", Value.vInt 1)])]) 5).1

/-- C9 counterexample: a record whose `location_name` is the empty string
(present and not `None`) while `state` is absent renders a `None` location
name, so "only when both fields are absent or None is the rendered location
name None" fails as stated. -/
theorem location_name_claim_counterexample :
    trackerLocationName (some [("t", [("location_name", Value.vStr "")])])
      "t" = none ∧
    fieldGet (snapGet (some [("t", [("location_name", Value.vStr "")])]) "t")
      "location_name" = Value.vStr "" ∧
    Value.vStr "" ≠ Value.vNull := by
  refine ⟨rfl, rfl, fun h => nomatch h⟩

/-- C9 (amended): the rendered location name falls back to `state` whenever
`location_name` is absent, `None`, or falsy; the chosen value is stringified;
and the result is `None` exactly when `location_name` is absent, `None` or
falsy and `state` is absent or `None`. -/
theorem location_name_fallback (d : Option Snapshot) (n : String)
    (ht : snapshotTruthy d = true) :
    (pyTruthy (fieldGet (snapGet d n) "location_name") = true →
      trackerLocationName d n =
        some (pyStr (fieldGet (snapGet d n) "location_name"))) ∧
    (pyTruthy (fieldGet (snapGet d n) "location_name") = false →
      (fieldGet (snapGet d n) "state" = .vNull →
        trackerLocationName d n = none) ∧
      (fieldGet (snapGet d n) "state" ≠ .vNull →
        trackerLocationName d n =
          some (pyStr (fieldGet (snapGet d n) "state")))) := by
  constructor
  · intro hloc
    simp only [trackerLocationName, ht, Bool.not_true, Bool.false_eq_true,
      if_false, hloc, if_true]
    rcases hv : fieldGet (snapGet d n) "location_name" <;> simp_all [pyTruthy]
  · intro hloc
    constructor
    · intro hst
      simp [trackerLocationName, ht, hloc, hst]
    · intro hst
      simp only [trackerLocationName, ht, Bool.not_true, Bool.false_eq_true,
        if_false, hloc, Bool.false_eq_true, if_false]

/-- C9 witness: a truthy `location_name` renders as itself; with a falsy one
the tracker renders the stringified `state`. -/
theorem location_name_fallback_witness :
    trackerLocationName (some [("t", [("location_name", Value.vStr "Home")])])
      "t" = some "Home" := by
  have h := (location_name_fallback
    (some [("t", [("location_name", Value.vStr "Home")])]) "t" rfl).1 (by decide)
  rw [h]
  rfl

/-- C10: an empty-but-present snapshot renders exactly like an absent one:
whenever the snapshot mapping is `None` or empty, every entity value property
is `None` and every extra-attributes property is the empty mapping. -/
theorem empty_snapshot_renders_as_absent (d : Option Snapshot) (n : String)
    (h : snapshotTruthy d = false) :
    sensorNativeValue d n = .vNull ∧
    binarySensorIsOn d n = none ∧
    numberNativeValue d n = none ∧
    trackerLatitude d n = none ∧
    trackerLongitude d n = none ∧
    sensorExtraStateAttributes d n = [] ∧
    binarySensorExtraStateAttributes d n = [] ∧
    numberExtraStateAttributes d n = [] ∧
    trackerExtraStateAttributes d n = [] := by
  refine ⟨?_, ?_, ?_, ?_, ?_, ?_, ?_, ?_, ?_⟩ <;>
    simp [sensorNativeValue, binarySensorIsOn, numberNativeValue,
      trackerLatitude, trackerLongitude, sensorExtraStateAttributes,
      binarySensorExtraStateAttributes, numberExtraStateAttributes,
      trackerExtraStateAttributes, colorAttributes, h]

/-- C10 witness: the empty snapshot `{}` at a concrete sensor name. -/
theorem empty_snapshot_renders_as_absent_witness :
    sensorNativeValue (some []) "x" = .vNull ∧
    binarySensorIsOn (some []) "x" = none ∧
    numberNativeValue (some []) "x" = none ∧
    trackerLatitude (some []) "x" = none ∧
    trackerLongitude (some []) "x" = none ∧
    sensorExtraStateAttributes (some []) "x" = [] ∧
    binarySensorExtraStateAttributes (some []) "x" = [] ∧
    numberExtraStateAttributes (some []) "x" = [] ∧
    trackerExtraStateAttributes (some []) "x" = [] :=
  empty_snapshot_renders_as_absent (some []) "x" rfl
